import Mathlib

/-!
Shallow embedding of `setup-ansible.py`: a script that bootstraps Ansible
across one master host and a list of worker hosts, then verifies the
installation.  External effects (local subprocesses, SSH connections,
remote command execution, file writes) are modelled by explicit oracle
functions passed in as arguments; the control flow and all string
construction are translated directly from the Python source.
-/

namespace SetupAnsible

/-- Configuration captured by `AnsibleSetup.__init__`. -/
structure Config where
  master_ip : String
  worker_ips : List String
  ssh_user : String
  ssh_password : Option String
  ssh_key_path : String

/-- Python truthiness of the optional password: `None` and the empty string
are falsy (`if self.ssh_password:`). -/
def passwordTruthy : Option String → Bool
  | none => false
  | some s => s ≠ ""

/-- Outcome of `client.exec_command` followed by `recv_exit_status`:
either an exit status with stdout/stderr text, or a raised exception. -/
inductive RemoteOutcome where
  | result (exitStatus : Nat) (out : String) (err : String)
  | exn (msg : String)

/-- The Python check that the command starts with the sudo marker
(line 74), expressed on the underlying character list (equivalent to
`String.startsWith`, and kernel-computable). -/
def startsWithSudo (command : String) : Bool :=
  "sudo".data.isPrefixOf command.data

/-- The Python slice of line 75, which drops the first five characters
of the command. -/
def dropFive (command : String) : String :=
  String.mk (command.data.drop 5)

/-- The sudo rewriting in `execute_remote_command` (lines 74-75): when
the command starts with the sudo marker and the stored password is truthy,
the command becomes `echo <password> | sudo -S ` followed by the command
without its first five characters. -/
def rewriteCommand (pw : Option String) (command : String) : String :=
  if startsWithSudo command && passwordTruthy pw then
    "echo " ++ pw.getD "" ++ " | sudo -S " ++ dropFive command
  else command

/-- Lines 77-83 of `execute_remote_command`: `ok` is `exit_status == 0`,
the output is stdout on success and stderr on failure, and a raised
exception is caught and returned as `(False, str(e))`. -/
def execResult : RemoteOutcome → Bool × String
  | .result exitStatus out err => (exitStatus == 0, if exitStatus == 0 then out else err)
  | .exn e => (false, e)

/-- Embeds `AnsibleSetup.execute_remote_command` (lines 71-83): rewrite
the command, then execute it remotely. -/
def execute_remote_command (pw : Option String) (exec : String → RemoteOutcome)
    (command : String) : Bool × String :=
  execResult (exec (rewriteCommand pw command))

/-- The fixed provisioning command list of `setup_node` (lines 106-112). -/
def nodeCommands : List String :=
  ["sudo apt-get update",
   "sudo apt-get install -y python3-pip sshpass",
   "pip3 install --user ansible",
   "echo \"export PATH=$PATH:$HOME/.local/bin\" >> ~/.bashrc",
   "source ~/.bashrc"]

/-- Per-host environment for `setup_node`: whether key-based and
password-based `client.connect` calls succeed (a `false` models the call
raising), the exception text of a failed password connect, and the remote
execution oracle. -/
structure NodeEnv where
  keyAuthOk : Bool
  passwordAuthOk : Bool
  passwordAuthErr : String
  exec : String → RemoteOutcome

/-- Why `setup_node` returned what it returned, mirroring the log message
emitted on each return path of the Python function. -/
inductive NodeReason where
  | success
  | couldNotConnect
  | commandFailed
  | setupError (msg : String)
deriving DecidableEq

/-- Result of `setup_node` for one host: the returned boolean, the reason
(log message) for it, and the provisioning commands that were actually
submitted for remote execution, in order. -/
structure NodeResult where
  ok : Bool
  reason : NodeReason
  executed : List String
deriving DecidableEq

/-- The connection phase of `setup_node` (lines 92-99): try key-based
authentication; on any exception, try password authentication only when the
password is truthy.  An exception from the password connect propagates to
the outer handler (`connectError`); with no truthy password, `connected`
stays `False` (`notConnected`). -/
inductive ConnectOutcome where
  | connected
  | notConnected
  | connectError (msg : String)

def tryConnect (pw : Option String) (env : NodeEnv) : ConnectOutcome :=
  if env.keyAuthOk then .connected
  else if passwordTruthy pw then
    if env.passwordAuthOk then .connected else .connectError env.passwordAuthErr
  else .notConnected

/-- The command loop of `setup_node` (lines 114-119): run each command in
order, stopping at the first failure.  Returns the overall boolean and the
list of commands that were executed. -/
def runNodeCommands (pw : Option String) (exec : String → RemoteOutcome) :
    List String → Bool × List String
  | [] => (true, [])
  | cmd :: rest =>
    if (execute_remote_command pw exec cmd).1 then
      let r := runNodeCommands pw exec rest
      (r.1, cmd :: r.2)
    else (false, [cmd])

/-- Embeds `AnsibleSetup.setup_node` (lines 85-127). -/
def setup_node (pw : Option String) (env : NodeEnv) : NodeResult :=
  match tryConnect pw env with
  | .connectError msg => ⟨false, .setupError msg, []⟩
  | .notConnected => ⟨false, .couldNotConnect, []⟩
  | .connected =>
    let r := runNodeCommands pw env.exec nodeCommands
    if r.1 then ⟨true, .success, r.2⟩ else ⟨false, .commandFailed, r.2⟩

/-- The `ssh-keygen` invocation of `create_ssh_key` (line 58). -/
def keygenCmd (path : String) : String :=
  "ssh-keygen -t rsa -b 4096 -f " ++ path ++ " -N \"\""

/-- Embeds `AnsibleSetup.create_ssh_key` (lines 54-63): if no private key exists at
the fixed path, run `ssh-keygen`; return the boolean result together with
the list of local commands that were run (the only way the function can
touch the key files). -/
def create_ssh_key (keyExists : Bool) (runLocal : String → Bool × String)
    (path : String) : Bool × List String :=
  if !keyExists then
    if !(runLocal (keygenCmd path)).1 then (false, [keygenCmd path])
    else (true, [keygenCmd path])
  else (true, [])

/-- The `sshpass ... ssh-copy-id` invocation of `distribute_ssh_key`
(line 196). -/
def sshCopyCmd (cfg : Config) (host : String) : String :=
  "sshpass -p " ++ cfg.ssh_password.getD "" ++ " ssh-copy-id -i " ++
    cfg.ssh_key_path ++ ".pub -o StrictHostKeyChecking=no " ++
    cfg.ssh_user ++ "@" ++ host

/-- Embeds `AnsibleSetup.distribute_ssh_key` (lines 192-204): only when the
password is truthy is the key copied; otherwise the function does nothing
and returns `True`.  Also returns the list of local commands run. -/
def distribute_ssh_key (cfg : Config) (runLocal : String → Bool × String)
    (host : String) : Bool × List String :=
  if passwordTruthy cfg.ssh_password then
    ((runLocal (sshCopyCmd cfg host)).1, [sshCopyCmd cfg host])
  else (true, [])

/-- One entry of an inventory `hosts` mapping: the generated host name and
its `ansible_host` value. -/
structure HostEntry where
  name : String
  ansible_host : String
deriving DecidableEq

/-- The generated worker host name: the fixed stem followed by the
decimal rendering of the number. -/
def workerName (n : Nat) : String := "k8s-worker" ++ Nat.repr n

/-- The worker entries built by the dict comprehension on lines 145-147,
which maps the generated name with number i+1 to the ansible_host value,
for i, ip in enumerate(worker_ips).  The first argument is the running
enumerate index. -/
def workerEntriesFrom : Nat → List String → List HostEntry
  | _, [] => []
  | i, ip :: rest => ⟨workerName (i + 1), ip⟩ :: workerEntriesFrom (i + 1) rest

/-- The inventory document built by `create_inventory_file` (lines 131-159):
`all.children.k8s_cluster.children` holds a `master` group and a `workers`
group, plus the global `vars`. -/
structure Inventory where
  masterHosts : List HostEntry
  workerHosts : List HostEntry
  ansible_user : String
  ansible_ssh_private_key_file : String
  ansible_become : String
deriving DecidableEq

def create_inventory_data (cfg : Config) : Inventory :=
  ⟨[⟨"k8s-master", cfg.master_ip⟩],
   workerEntriesFrom 0 cfg.worker_ips,
   cfg.ssh_user, cfg.ssh_key_path, "yes"⟩

/-- Embeds `AnsibleSetup.create_inventory_file` (lines 129-167): building the
document is pure; only the file write (modelled by `writeOk`) can fail. -/
def create_inventory_file (cfg : Config) (writeOk : Bool) : Bool × Inventory :=
  (writeOk, create_inventory_data cfg)

/-- The `ansible_become_password` value written on line 182: the stored
password when truthy, otherwise the empty string. -/
def becomePasswordField (pw : Option String) : String :=
  if passwordTruthy pw then pw.getD "" else ""

/-- The literal `ansible.cfg` content written by `create_ansible_cfg`
(lines 171-183). -/
def ansibleCfgContent (cfg : Config) : String :=
  "[defaults]\ninventory = inventory.yml\nhost_key_checking = False\nremote_user = " ++
    cfg.ssh_user ++
    "\nprivate_key_file = ~/.ssh/id_rsa\n\n[privilege_escalation]\nbecome = True\nbecome_method = sudo\nbecome_user = root\nbecome_ask_pass = False\nansible_become_password = " ++
    becomePasswordField cfg.ssh_password ++ "\n"

/-- Embeds `AnsibleSetup.create_ansible_cfg` (lines 169-190): pure content plus a
fallible write. -/
def create_ansible_cfg (cfg : Config) (writeOk : Bool) : Bool × String :=
  (writeOk, ansibleCfgContent cfg)

/-- Embeds `AnsibleSetup.verify_ansible` (lines 206-213): the final sanity check
that `ansible --version` runs successfully. -/
def verify_ansible (runLocal : String → Bool × String) : Bool :=
  (runLocal "ansible --version").1

/-- The list `all_hosts = [self.master_ip] + self.worker_ips`
(line 223). -/
def allHosts (cfg : Config) : List String :=
  cfg.master_ip :: cfg.worker_ips

/-- Environment of one whole `run`: the local-command oracle, whether the
private key already exists, the per-host SSH/remote environment, and
whether each of the two file writes succeeds. -/
structure RunEnv where
  keyExists : Bool
  runLocal : String → Bool × String
  nodeEnv : String → NodeEnv
  writeInventoryOk : Bool
  writeCfgOk : Bool

/-- Embeds `AnsibleSetup.run` (lines 215-254): generate the key, distribute it to
every host, configure every host (the thread pool requires every
`setup_node` future to return `True`; completion order does not change the
aggregate), write the two files, and run the sanity check.  Each phase
short-circuits the rest on failure. -/
def run (cfg : Config) (env : RunEnv) : Bool :=
  if !(create_ssh_key env.keyExists env.runLocal cfg.ssh_key_path).1 then false
  else if !((allHosts cfg).all fun h => (distribute_ssh_key cfg env.runLocal h).1) then false
  else if !((allHosts cfg).all fun h => (setup_node cfg.ssh_password (env.nodeEnv h)).ok) then
    false
  else if !((create_inventory_file cfg env.writeInventoryOk).1 &&
      (create_ansible_cfg cfg env.writeCfgOk).1) then false
  else if !verify_ansible env.runLocal then false
  else true

/-! ### The verification phase (`AnsibleVerification`) -/

/-- Environment of the verifier: the shell-command oracle
(`run_ansible_command`), whether the inventory file exists, and the
inventory path (`inventory.yml` by default). -/
structure VerifyEnv where
  runA : String → Bool × String
  inventoryFileExists : Bool
  inventory_path : String

/-- The three version-check commands of `verify_ansible_installation`
(lines 290-294). -/
def installChecks : List String :=
  ["ansible --version", "ansible-playbook --version", "ansible-galaxy --version"]

/-- The loop of `verify_ansible_installation` (lines 296-302): run each
check in order, returning `False` at the first failure.  Also returns the
commands actually run. -/
def runInstallChecks (runA : String → Bool × String) : List String → Bool × List String
  | [] => (true, [])
  | c :: rest =>
    if (runA c).1 then
      let r := runInstallChecks runA rest
      (r.1, c :: r.2)
    else (false, [c])

/-- Embeds `AnsibleVerification.verify_ansible_installation`
(lines 288-304). -/
def verify_ansible_installation (runA : String → Bool × String) : Bool × List String :=
  runInstallChecks runA installChecks

/-- The inventory-listing command of `verify_inventory` (line 314). -/
def inventoryListCmd (path : String) : String :=
  "ansible-inventory --list -i " ++ path

/-- Embeds `AnsibleVerification.verify_inventory` (lines 306-320): fail when the
inventory file is missing, otherwise run the listing command. -/
def verify_inventory (env : VerifyEnv) : Bool × List String :=
  if !env.inventoryFileExists then (false, [])
  else ((env.runA (inventoryListCmd env.inventory_path)).1,
    [inventoryListCmd env.inventory_path])

/-- The ping command of `test_connectivity` (line 327). -/
def pingCmd (path : String) : String :=
  "ansible all -i " ++ path ++ " -m ping"

/-- Embeds `AnsibleVerification.test_connectivity` (lines 322-333). -/
def test_connectivity (env : VerifyEnv) : Bool × List String :=
  ((env.runA (pingCmd env.inventory_path)).1, [pingCmd env.inventory_path])

/-- The sudo-probe command of `verify_sudo_access` (line 339). -/
def sudoProbeCmd (path : String) : String :=
  "ansible all -i " ++ path ++ " -m shell -a \"sudo -n true\" -b"

/-- Embeds `AnsibleVerification.verify_sudo_access` (lines 335-346). -/
def verify_sudo_access (env : VerifyEnv) : Bool × List String :=
  ((env.runA (sudoProbeCmd env.inventory_path)).1, [sudoProbeCmd env.inventory_path])

/-- The interpreter-probe command of `verify_python` (line 352). -/
def pythonProbeCmd (path : String) : String :=
  "ansible all -i " ++ path ++ " -m shell -a \x27python3 --version\x27"

/-- Embeds `AnsibleVerification.verify_python` (lines 348-359). -/
def verify_python (env : VerifyEnv) : Bool × List String :=
  ((env.runA (pythonProbeCmd env.inventory_path)).1, [pythonProbeCmd env.inventory_path])

/-- The fixed check list of `run_verification` (lines 363-369), each check
paired with the commands it ran. -/
def verificationSteps (env : VerifyEnv) : List (Bool × List String) :=
  [verify_ansible_installation env.runA,
   verify_inventory env,
   test_connectivity env,
   verify_sudo_access env,
   verify_python env]

/-- Embeds `AnsibleVerification.run_verification` (lines 361-380): execute every
check (`all_passed` is only updated, never returned early), returning the
final `all_passed` and the concatenated trace of commands run. -/
def run_verification (env : VerifyEnv) : Bool × List String :=
  (verificationSteps env).foldl (fun acc step => (acc.1 && step.1, acc.2 ++ step.2)) (true, [])

/-! ### `verify_setup` and `main` (lines 382-412) -/

/-- The banner `verify_setup` prints (lines 385-388). -/
def verifyBanner (allPassed : Bool) : String :=
  if allPassed then "\n✅ Ansible installation and configuration is successful."
  else "\n❌ There are issues with Ansible installation or configuration. Please check the logs."

/-- Observable outcome of one `main` invocation: the process exit code,
whether the verification phase ran at all, and the banner it printed. -/
structure MainOutcome where
  exitCode : Nat
  verificationRan : Bool
  banner : Option String
deriving DecidableEq

/-- Embeds `main` (lines 390-409): `if not setup.run(): sys.exit(1)` terminates
the process with code 1; only when `run()` returned `True` does control
reach `verify_setup()`, which prints a banner and never changes the exit
code (the process then ends normally with code 0). -/
def mainFlow (cfg : Config) (env : RunEnv) (venv : VerifyEnv) : MainOutcome :=
  if !run cfg env then ⟨1, false, none⟩
  else ⟨0, true, some (verifyBanner (run_verification venv).1)⟩

/-! ### Injectivity of `Nat.repr`
The generated worker names are `k8s-worker1 .. k8s-workerN`; their
pairwise distinctness reduces to the injectivity of the decimal rendering
of naturals, which we establish via a digit-evaluation round trip. -/

/-- Reference decimal rendering: most significant digit first. -/
def digitsSpec (n : Nat) : List Char :=
  if h : n < 10 then [Nat.digitChar n]
  else
    have : n / 10 < n := Nat.div_lt_self (by omega) (by omega)
    digitsSpec (n / 10) ++ [Nat.digitChar (n % 10)]

theorem toDigitsCore_out (b : Nat) :
    ∀ (f n : Nat) (l : List Char),
      Nat.toDigitsCore b f n l = Nat.toDigitsCore b f n [] ++ l := by
  intro f
  induction f with
  | zero => intro n l; simp [Nat.toDigitsCore]
  | succ f ih =>
    intro n l
    simp only [Nat.toDigitsCore]
    by_cases h : n / b = 0
    · simp [h]
    · simp only [h, if_false]
      rw [ih (n / b) (Nat.digitChar (n % b) :: l), ih (n / b) [Nat.digitChar (n % b)]]
      simp

theorem toDigitsCore_eq_digitsSpec :
    ∀ (f n : Nat), n < f → Nat.toDigitsCore 10 f n [] = digitsSpec n := by
  intro f
  induction f with
  | zero => intro n h; omega
  | succ f ih =>
    intro n hn
    simp only [Nat.toDigitsCore]
    by_cases h : n / 10 = 0
    · have hlt : n < 10 := by omega
      rw [digitsSpec]
      simp [h, hlt, Nat.mod_eq_of_lt hlt]
    · have hge : 10 ≤ n := by omega
      have hdiv : n / 10 < n := Nat.div_lt_self (by omega) (by omega)
      simp only [h, if_false]
      rw [toDigitsCore_out 10 f (n / 10) [Nat.digitChar (n % 10)], ih (n / 10) (by omega)]
      conv_rhs => rw [digitsSpec]
      simp [Nat.not_lt.mpr hge]

theorem toDigits_eq_digitsSpec (n : Nat) : Nat.toDigits 10 n = digitsSpec n :=
  toDigitsCore_eq_digitsSpec (n + 1) n (Nat.lt_succ_self n)

/-- Decimal digit value of a character (left inverse of `Nat.digitChar` on
digits `0..9`). -/
def valDigit (c : Char) : Nat := c.toNat - 48

theorem valDigit_digitChar : ∀ d, d < 10 → valDigit (Nat.digitChar d) = d := by decide

/-- Evaluate a most-significant-first digit string back to a natural. -/
def unDigits (l : List Char) : Nat :=
  l.foldl (fun acc c => acc * 10 + valDigit c) 0

theorem unDigits_digitsSpec (n : Nat) : unDigits (digitsSpec n) = n := by
  induction n using Nat.strong_induction_on with
  | _ n ih =>
    rw [digitsSpec]
    by_cases h : n < 10
    · simp [h, unDigits, valDigit_digitChar n h]
    · have hdiv : n / 10 < n := Nat.div_lt_self (by omega) (by omega)
      simp only [h, dif_neg, not_false_iff]
      simp only [unDigits, List.foldl_append, List.foldl]
      have hrec := ih (n / 10) hdiv
      simp only [unDigits] at hrec
      rw [hrec, valDigit_digitChar (n % 10) (Nat.mod_lt n (by omega))]
      omega

theorem digitsSpec_injective : Function.Injective digitsSpec := by
  intro a b h
  have ha := unDigits_digitsSpec a
  rw [h, unDigits_digitsSpec b] at ha
  exact ha.symm

theorem digitsSpec_ne_nil (n : Nat) : digitsSpec n ≠ [] := by
  rw [digitsSpec]
  by_cases h : n < 10 <;> simp [h]

theorem repr_data (n : Nat) : (Nat.repr n).data = digitsSpec n := by
  show (List.asString (Nat.toDigits 10 n)).data = digitsSpec n
  rw [toDigits_eq_digitsSpec]
  rfl

theorem natRepr_injective : Function.Injective Nat.repr := by
  intro a b h
  apply digitsSpec_injective
  rw [← repr_data, ← repr_data, h]

/-! ### Shape of the generated inventory -/

theorem string_data_append (s t : String) : (s ++ t).data = s.data ++ t.data := rfl

theorem string_data_ext {s t : String} (h : s.data = t.data) : s = t :=
  congrArg String.mk h

theorem workerName_injective : Function.Injective workerName := by
  intro a b h
  apply natRepr_injective
  apply string_data_ext
  have hd := congrArg String.data h
  simp only [workerName, string_data_append] at hd
  exact List.append_cancel_left hd

theorem workerName_ne_master (n : Nat) : workerName n ≠ "k8s-master" := by
  intro h
  have hd := congrArg String.data h
  simp only [workerName, string_data_append] at hd
  have hlen := congrArg List.length hd
  rw [List.length_append] at hlen
  have h1 : ("k8s-worker".data).length = 10 := rfl
  have h2 : ("k8s-master".data).length = 10 := rfl
  rw [h1, h2] at hlen
  have hne : (Nat.repr n).data.length ≠ 0 := by
    rw [repr_data]
    simpa using digitsSpec_ne_nil n
  omega

theorem workerEntriesFrom_length :
    ∀ (ips : List String) (i : Nat), (workerEntriesFrom i ips).length = ips.length := by
  intro ips
  induction ips with
  | nil => intro i; rfl
  | cons ip rest ih => intro i; simp [workerEntriesFrom, ih]

theorem workerEntriesFrom_getElem? :
    ∀ (ips : List String) (i j : Nat),
      (workerEntriesFrom i ips)[j]? =
        (ips[j]?).map fun ip => ⟨workerName (i + j + 1), ip⟩ := by
  intro ips
  induction ips with
  | nil => intro i j; simp [workerEntriesFrom]
  | cons ip rest ih =>
    intro i j
    cases j with
    | zero => simp [workerEntriesFrom]
    | succ j =>
      simp only [workerEntriesFrom, List.getElem?_cons_succ, ih (i + 1) j]
      have : i + 1 + j + 1 = i + (j + 1) + 1 := by omega
      rw [this]

theorem mem_workerEntriesFrom_name :
    ∀ (ips : List String) (i : Nat) (s : String),
      s ∈ (workerEntriesFrom i ips).map (fun e => e.name) →
        ∃ j, j < ips.length ∧ s = workerName (i + j + 1) := by
  intro ips
  induction ips with
  | nil => intro i s h; simp [workerEntriesFrom] at h
  | cons ip rest ih =>
    intro i s h
    simp only [workerEntriesFrom, List.map_cons, List.mem_cons] at h
    rcases h with h | h
    · exact ⟨0, by simp, by simpa using h⟩
    · obtain ⟨j, hj, hs⟩ := ih (i + 1) s h
      exact ⟨j + 1, by simpa using hj, by rw [hs]; congr 1; omega⟩

theorem workerEntriesFrom_names_nodup :
    ∀ (ips : List String) (i : Nat),
      ((workerEntriesFrom i ips).map (fun e => e.name)).Nodup := by
  intro ips
  induction ips with
  | nil => intro i; simp [workerEntriesFrom]
  | cons ip rest ih =>
    intro i
    simp only [workerEntriesFrom, List.map_cons, List.nodup_cons]
    refine ⟨fun hmem => ?_, ih (i + 1)⟩
    obtain ⟨j, _, hs⟩ := mem_workerEntriesFrom_name rest (i + 1) (workerName (i + 1)) hmem
    have := workerName_injective hs
    omega

theorem inventory_names_nodup (cfg : Config) :
    ((((create_inventory_data cfg).masterHosts ++
        (create_inventory_data cfg).workerHosts).map (fun e => e.name))).Nodup := by
  simp only [create_inventory_data, List.map_append, List.map_cons, List.map_nil,
    List.singleton_append, List.nodup_cons]
  refine ⟨fun hmem => ?_, workerEntriesFrom_names_nodup cfg.worker_ips 0⟩
  obtain ⟨j, _, hs⟩ := mem_workerEntriesFrom_name cfg.worker_ips 0 "k8s-master" hmem
  exact workerName_ne_master (0 + j + 1) hs.symm

/-! ### Behaviour of the provisioning command loop -/

theorem runNodeCommands_isTake (pw : Option String) (exec : String → RemoteOutcome) :
    ∀ cmds : List String, ∃ k, (runNodeCommands pw exec cmds).2 = cmds.take k := by
  intro cmds
  induction cmds with
  | nil => exact ⟨0, rfl⟩
  | cons cmd rest ih =>
    cases h : (execute_remote_command pw exec cmd).1 with
    | true =>
      obtain ⟨k, hk⟩ := ih
      exact ⟨k + 1, by simp [runNodeCommands, h, hk]⟩
    | false => exact ⟨1, by simp [runNodeCommands, h]⟩

theorem runNodeCommands_fail (pw : Option String) (exec : String → RemoteOutcome) :
    ∀ (cmds : List String) (i : Nat) (hi : i < cmds.length),
      (execute_remote_command pw exec (cmds.get ⟨i, hi⟩)).1 = false →
        (runNodeCommands pw exec cmds).1 = false ∧
        (runNodeCommands pw exec cmds).2.length ≤ i + 1 := by
  intro cmds
  induction cmds with
  | nil => intro i hi; simp at hi
  | cons cmd rest ih =>
    intro i hi hfail
    cases i with
    | zero =>
      simp only [List.get] at hfail
      simp [runNodeCommands, hfail]
    | succ i =>
      cases h : (execute_remote_command pw exec cmd).1 with
      | false =>
        refine ⟨by simp [runNodeCommands, h], ?_⟩
        simp only [runNodeCommands, h, Bool.false_eq_true, if_false, List.length_cons,
          List.length_nil]
        omega
      | true =>
        have hrec := ih i (by simpa using hi) (by simpa using hfail)
        refine ⟨by simp [runNodeCommands, h, hrec.1], ?_⟩
        simp only [runNodeCommands, h, if_true, List.length_cons]
        omega

/-! ### The full-run success condition -/

theorem run_eq_true_iff (cfg : Config) (env : RunEnv) :
    run cfg env = true ↔
      ((create_ssh_key env.keyExists env.runLocal cfg.ssh_key_path).1 = true ∧
       (∀ h ∈ allHosts cfg, (distribute_ssh_key cfg env.runLocal h).1 = true) ∧
       (∀ h ∈ allHosts cfg, (setup_node cfg.ssh_password (env.nodeEnv h)).ok = true) ∧
       (create_inventory_file cfg env.writeInventoryOk).1 = true ∧
       (create_ansible_cfg cfg env.writeCfgOk).1 = true ∧
       verify_ansible env.runLocal = true) := by
  unfold run
  cases h1 : (create_ssh_key env.keyExists env.runLocal cfg.ssh_key_path).1 <;>
  cases h2 : (allHosts cfg).all (fun h => (distribute_ssh_key cfg env.runLocal h).1) <;>
  cases h3 : (allHosts cfg).all (fun h => (setup_node cfg.ssh_password (env.nodeEnv h)).ok) <;>
  cases h4 : (create_inventory_file cfg env.writeInventoryOk).1 <;>
  cases h5 : (create_ansible_cfg cfg env.writeCfgOk).1 <;>
  cases h6 : verify_ansible env.runLocal <;>
  simp [h1, h2, h3, h4, h5, h6, ← List.all_eq_true]

/-! ### Claim theorems -/

/-- The concrete scenario of spec §8: master `10.0.0.1`, workers
`10.0.0.2` and `10.0.0.3`, user `ubuntu`, no password. -/
def scenarioCfg : Config :=
  ⟨"10.0.0.1", ["10.0.0.2", "10.0.0.3"], "ubuntu", none, "/root/.ssh/id_rsa"⟩

/-- C2: `AnsibleSetup.run` returns `False` if and only if at least one of
SSH key generation, a per-host key distribution, a per-host node
configuration, the inventory write, the config write, or the final ansible
sanity check failed; if all succeed it returns `True`. -/
theorem C2_run_false_iff (cfg : Config) (env : RunEnv) :
    run cfg env = false ↔
      ((create_ssh_key env.keyExists env.runLocal cfg.ssh_key_path).1 = false ∨
       (∃ h ∈ allHosts cfg, (distribute_ssh_key cfg env.runLocal h).1 = false) ∨
       (∃ h ∈ allHosts cfg, (setup_node cfg.ssh_password (env.nodeEnv h)).ok = false) ∨
       (create_inventory_file cfg env.writeInventoryOk).1 = false ∨
       (create_ansible_cfg cfg env.writeCfgOk).1 = false ∨
       verify_ansible env.runLocal = false) := by
  have hiff := run_eq_true_iff cfg env
  constructor
  · intro hfalse
    by_contra hnone
    push_neg at hnone
    obtain ⟨n1, n2, n3, n4, n5, n6⟩ := hnone
    have : run cfg env = true := by
      refine hiff.mpr ⟨by simpa using n1, ?_, ?_, by simpa using n4, by simpa using n5,
        by simpa using n6⟩
      · intro h hmem
        have := n2 h hmem
        simpa using this
      · intro h hmem
        have := n3 h hmem
        simpa using this
    rw [this] at hfalse
    exact absurd hfalse (by simp)
  · intro hone
    cases hrun : run cfg env with
    | false => rfl
    | true =>
      obtain ⟨k1, k2, k3, k4, k5, k6⟩ := hiff.mp hrun
      rcases hone with h | ⟨x, hx, h⟩ | ⟨x, hx, h⟩ | h | h | h
      · rw [k1] at h; exact absurd h (by simp)
      · rw [k2 x hx] at h; exact absurd h (by simp)
      · rw [k3 x hx] at h; exact absurd h (by simp)
      · rw [k4] at h; exact absurd h (by simp)
      · rw [k5] at h; exact absurd h (by simp)
      · rw [k6] at h; exact absurd h (by simp)

/-- C4: for every non-empty worker IP list, the generated inventory has
exactly one `master` entry carrying the master IP, `len(workers)` worker
entries whose generated names are numbered `1..N` and assigned to the
worker IPs in input-list order, and all host names (master and workers)
are pairwise distinct, so each host entry appears exactly once. -/
theorem C4_inventory_shape (cfg : Config) (hne : cfg.worker_ips ≠ []) :
    (create_inventory_data cfg).masterHosts = [⟨"k8s-master", cfg.master_ip⟩] ∧
    (create_inventory_data cfg).workerHosts.length = cfg.worker_ips.length ∧
    (∀ j : Nat, (create_inventory_data cfg).workerHosts[j]? =
      (cfg.worker_ips[j]?).map fun ip => ⟨workerName (j + 1), ip⟩) ∧
    ((((create_inventory_data cfg).masterHosts ++
        (create_inventory_data cfg).workerHosts).map (fun e => e.name))).Nodup := by
  refine ⟨rfl, workerEntriesFrom_length cfg.worker_ips 0, fun j => ?_,
    inventory_names_nodup cfg⟩
  have h := workerEntriesFrom_getElem? cfg.worker_ips 0 j
  simpa using h

/-- Witness for C4 at the concrete scenario configuration. -/
theorem C4_inventory_shape_witness :
    (create_inventory_data scenarioCfg).masterHosts =
      [⟨"k8s-master", scenarioCfg.master_ip⟩] ∧
    (create_inventory_data scenarioCfg).workerHosts.length =
      scenarioCfg.worker_ips.length ∧
    (create_inventory_data scenarioCfg).workerHosts[0]? =
      (scenarioCfg.worker_ips[0]?).map (fun ip => ⟨workerName 1, ip⟩) ∧
    ((((create_inventory_data scenarioCfg).masterHosts ++
        (create_inventory_data scenarioCfg).workerHosts).map (fun e => e.name))).Nodup := by
  obtain ⟨h1, h2, h3, h4⟩ := C4_inventory_shape scenarioCfg (by decide)
  exact ⟨h1, h2, by simpa using h3 0, h4⟩

/-- C5: if the provisioning command at position `i` of the fixed list fails
on a host, `setup_node` returns `False` for that host and no command at a
position past `i` is executed: the executed commands are an initial
segment of the list of length at most `i + 1`. -/
theorem C5_command_abort (pw : Option String) (env : NodeEnv) (i : Nat)
    (hi : i < nodeCommands.length)
    (hfail : (execute_remote_command pw env.exec (nodeCommands.get ⟨i, hi⟩)).1 = false) :
    (setup_node pw env).ok = false ∧
    (setup_node pw env).executed.length ≤ i + 1 ∧
    ∃ k, (setup_node pw env).executed = nodeCommands.take k := by
  have hrun := runNodeCommands_fail pw env.exec nodeCommands i hi hfail
  have htake := runNodeCommands_isTake pw env.exec nodeCommands
  unfold setup_node
  cases htc : tryConnect pw env with
  | connectError msg => exact ⟨rfl, by simp, 0, by simp⟩
  | notConnected => exact ⟨rfl, by simp, 0, by simp⟩
  | connected =>
    simp [hrun.1, hrun.2, htake]

/-- Environment for the C5 witness: connection succeeds and every remote
command exits with status 1. -/
def envC5 : NodeEnv := ⟨true, false, "", fun _ => .result 1 "" "err"⟩

/-- Witness for C5 with the first provisioning command failing. -/
theorem C5_command_abort_witness :
    (setup_node none envC5).ok = false ∧
    (setup_node none envC5).executed.length ≤ 0 + 1 ∧
    ∃ k, (setup_node none envC5).executed = nodeCommands.take k :=
  C5_command_abort none envC5 0 (by decide) (by decide)

/-- C6: `create_ssh_key` is idempotent: when a private key already exists
at the fixed path it runs no command at all (so the existing key files are
untouched) and returns `True`; when the key is absent it runs exactly the
`ssh-keygen` command generating a 4096-bit RSA key pair with an empty
passphrase, and returns the success of that command. -/
theorem C6_key_idempotent (keyExists : Bool) (runLocal : String → Bool × String)
    (path : String) :
    (keyExists = true → create_ssh_key keyExists runLocal path = (true, [])) ∧
    (keyExists = false →
      (create_ssh_key keyExists runLocal path).2 = [keygenCmd path] ∧
      (create_ssh_key keyExists runLocal path).1 = (runLocal (keygenCmd path)).1 ∧
      keygenCmd path = "ssh-keygen -t rsa -b 4096 -f " ++ path ++ " -N \"\"") := by
  constructor
  · intro h
    simp [create_ssh_key, h]
  · intro h
    subst h
    refine ⟨?_, ?_, rfl⟩ <;>
      · unfold create_ssh_key
        cases hk : (runLocal (keygenCmd path)).1 <;> simp [hk]

/-- Witness for C6 in both branches. -/
theorem C6_key_idempotent_witness :
    create_ssh_key true (fun _ => (true, "")) "/root/.ssh/id_rsa" = (true, []) ∧
    (create_ssh_key false (fun _ => (true, "")) "/root/.ssh/id_rsa").2 =
      [keygenCmd "/root/.ssh/id_rsa"] :=
  ⟨(C6_key_idempotent true (fun _ => (true, "")) "/root/.ssh/id_rsa").1 rfl,
   ((C6_key_idempotent false (fun _ => (true, "")) "/root/.ssh/id_rsa").2 rfl).1⟩

/-- C9: `execute_remote_command` executes exactly the rewritten command;
when the command starts with `sudo` and a password is configured the
rewriting pipes the password into the escalation prompt
(`echo <password> | sudo -S <command[5:]>`); with no password, or a
command not starting with `sudo`, the command is left unmodified. -/
theorem C9_sudo_rewrite (pw : Option String) (exec : String → RemoteOutcome)
    (command : String) :
    (startsWithSudo command = true → passwordTruthy pw = true →
      rewriteCommand pw command =
        "echo " ++ pw.getD "" ++ " | sudo -S " ++ dropFive command) ∧
    (startsWithSudo command = false ∨ passwordTruthy pw = false →
      rewriteCommand pw command = command) ∧
    execute_remote_command pw exec command = execResult (exec (rewriteCommand pw command)) := by
  refine ⟨?_, ?_, rfl⟩
  · intro h1 h2
    simp [rewriteCommand, h1, h2]
  · intro h
    rcases h with h | h <;> simp [rewriteCommand, h]

/-- Witness for C9: the rewrite applied to the first provisioning command,
and a no-password execution left unmodified. -/
theorem C9_sudo_rewrite_witness :
    rewriteCommand (some "pw") "sudo apt-get update" = "echo pw | sudo -S apt-get update" ∧
    rewriteCommand none "sudo apt-get update" = "sudo apt-get update" := by
  constructor
  · have h := (C9_sudo_rewrite (some "pw") (fun _ => .exn "") "sudo apt-get update").1
      (by decide) (by decide)
    rw [h]
    decide
  · exact (C9_sudo_rewrite none (fun _ => .exn "") "sudo apt-get update").2.1
      (Or.inr (by decide))

/-- C10: the tool-installation step of the verifier is fail-fast: when the core
`ansible --version` check fails, the `ansible-playbook` and
`ansible-galaxy` checks are not executed and the step returns `False`
immediately (the executed-command trace holds only the first check). -/
theorem C10_install_checks_fail_fast (runA : String → Bool × String)
    (hfail : (runA "ansible --version").1 = false) :
    verify_ansible_installation runA = (false, ["ansible --version"]) := by
  simp [verify_ansible_installation, installChecks, runInstallChecks, hfail]

/-- Witness for C10 with an oracle failing every command. -/
theorem C10_install_checks_fail_fast_witness :
    verify_ansible_installation (fun _ => (false, "Error:")) =
      (false, ["ansible --version"]) :=
  C10_install_checks_fail_fast (fun _ => (false, "Error:")) rfl

/-- C7: all five verification steps execute in fixed order regardless of
the outcomes of the other steps — the command trace always contains every later
probe (the trace is the unconditional concatenation of the five step
traces, so the connectivity, sudo and interpreter probes are always run) —
and the overall verification result is the conjunction of the five step
results. -/
theorem C7_verification_independent (env : VerifyEnv) :
    (run_verification env).1 =
      ((verify_ansible_installation env.runA).1 && (verify_inventory env).1 &&
        (test_connectivity env).1 && (verify_sudo_access env).1 && (verify_python env).1) ∧
    (run_verification env).2 =
      (verify_ansible_installation env.runA).2 ++ ((verify_inventory env).2 ++
        ((test_connectivity env).2 ++ ((verify_sudo_access env).2 ++
          (verify_python env).2))) ∧
    pingCmd env.inventory_path ∈ (run_verification env).2 ∧
    sudoProbeCmd env.inventory_path ∈ (run_verification env).2 ∧
    pythonProbeCmd env.inventory_path ∈ (run_verification env).2 := by
  refine ⟨?_, ?_, ?_, ?_, ?_⟩ <;>
    simp [run_verification, verificationSteps, test_connectivity, verify_sudo_access,
      verify_python, List.append_assoc, Bool.and_assoc]

/-- C8: with no password configured, `distribute_ssh_key` is a no-op
returning success for every host (no copy command is run), the
`ansible_become_password` field of the generated configuration is the
empty string, and in the concrete scenario the workers group maps
`k8s-worker1` to `10.0.0.2` and `k8s-worker2` to `10.0.0.3`. -/
theorem C8_no_password (cfg : Config) (runLocal : String → Bool × String) (host : String)
    (hpw : cfg.ssh_password = none) :
    distribute_ssh_key cfg runLocal host = (true, []) ∧
    becomePasswordField cfg.ssh_password = "" ∧
    (create_inventory_data scenarioCfg).workerHosts =
      [⟨"k8s-worker1", "10.0.0.2"⟩, ⟨"k8s-worker2", "10.0.0.3"⟩] := by
  refine ⟨?_, ?_, ?_⟩
  · simp [distribute_ssh_key, hpw, passwordTruthy]
  · simp [becomePasswordField, hpw, passwordTruthy]
  · decide

/-- Witness for C8 at the scenario configuration. -/
theorem C8_no_password_witness :
    distribute_ssh_key scenarioCfg (fun _ => (true, "")) "10.0.0.1" = (true, []) ∧
    becomePasswordField scenarioCfg.ssh_password = "" ∧
    (create_inventory_data scenarioCfg).workerHosts =
      [⟨"k8s-worker1", "10.0.0.2"⟩, ⟨"k8s-worker2", "10.0.0.3"⟩] :=
  C8_no_password scenarioCfg (fun _ => (true, "")) "10.0.0.1" rfl

/-- Configuration used in the C1 counterexample. -/
def cfgC1 : Config := ⟨"10.0.0.1", ["10.0.0.2"], "ubuntu", none, "/root/.ssh/id_rsa"⟩

/-- Run environment whose setup phase fails only at the final ansible
sanity check: every local command fails. -/
def envC1 : RunEnv :=
  ⟨true, fun _ => (false, "Error: ansible: command not found"),
   fun _ => ⟨true, false, "", fun _ => .result 0 "" ""⟩, true, true⟩

/-- Verification environment for the C1 counterexample. -/
def venvC1 : VerifyEnv := ⟨fun _ => (true, ""), true, "inventory.yml"⟩

/-- C1 counterexample: when the setup phase fails, `main` exits with code 1
before `verify_setup()` is reached, so the verification phase does not run
— contradicting the claim that verification executes regardless of the
setup outcome. -/
theorem C1_counterexample :
    run cfgC1 envC1 = false ∧
    mainFlow cfgC1 envC1 venvC1 =
      { exitCode := 1, verificationRan := false, banner := none } := by decide

/-- C1 amended: the exit code is 1 exactly when the setup phase fails, in
which case the verification phase does not run; verification runs exactly
when setup succeeds, and then it only prints the pass/fail banner while
the exit code stays 0 regardless of the verification result. -/
theorem C1_exit_code (cfg : Config) (env : RunEnv) (venv : VerifyEnv) :
    ((mainFlow cfg env venv).exitCode = 1 ↔ run cfg env = false) ∧
    ((mainFlow cfg env venv).verificationRan = true ↔ run cfg env = true) ∧
    (run cfg env = true →
      (mainFlow cfg env venv).exitCode = 0 ∧
      (mainFlow cfg env venv).banner = some (verifyBanner (run_verification venv).1)) := by
  unfold mainFlow
  cases h : run cfg env <;> simp [h]

/-- Run environment whose setup phase fully succeeds. -/
def envC1ok : RunEnv :=
  ⟨true, fun _ => (true, ""),
   fun _ => ⟨true, false, "", fun _ => .result 0 "" ""⟩, true, true⟩

/-- Witness for the amended C1 on a successful setup. -/
theorem C1_exit_code_witness :
    (mainFlow cfgC1 envC1ok venvC1).exitCode = 0 ∧
    (mainFlow cfgC1 envC1ok venvC1).banner =
      some (verifyBanner (run_verification venvC1).1) :=
  (C1_exit_code cfgC1 envC1ok venvC1).2.2 (by decide)

/-- Node environment of the C3 scenario: key-based authentication raises
and password authentication raises as well. -/
def envC3 : NodeEnv := ⟨false, false, "Authentication failed.", fun _ => .result 0 "" ""⟩

/-- C3 counterexample: with a password supplied and both authentication
attempts failing, `setup_node` returns `False`, but through the generic
exception handler of the outer `try` (reporting the propagated connection
error), not through the `Could not connect` branch: the exception raised
by the password `connect` call skips the `if not connected` check. -/
theorem C3_counterexample :
    (setup_node (some "secret") envC3).ok = false ∧
    (setup_node (some "secret") envC3).reason ≠ NodeReason.couldNotConnect ∧
    (setup_node (some "secret") envC3).reason =
      NodeReason.setupError "Authentication failed." := by decide

/-- C3 amended: password supplied, key-based and password authentication
both fail → `setup_node` for that host returns `False` with the generic
error-handler reason carrying the connection exception (the
"could not connect" report is reserved for the no-password path), no
provisioning command is attempted on the host, and the overall run reports
failure. -/
theorem C3_both_auth_fail (cfg : Config) (env : RunEnv) (host : String)
    (hpw : passwordTruthy cfg.ssh_password = true)
    (hmem : host ∈ allHosts cfg)
    (hkey : (env.nodeEnv host).keyAuthOk = false)
    (hpass : (env.nodeEnv host).passwordAuthOk = false) :
    (setup_node cfg.ssh_password (env.nodeEnv host)).ok = false ∧
    (setup_node cfg.ssh_password (env.nodeEnv host)).reason =
      NodeReason.setupError (env.nodeEnv host).passwordAuthErr ∧
    (setup_node cfg.ssh_password (env.nodeEnv host)).executed = [] ∧
    run cfg env = false := by
  have hnode : setup_node cfg.ssh_password (env.nodeEnv host) =
      ⟨false, NodeReason.setupError (env.nodeEnv host).passwordAuthErr, []⟩ := by
    unfold setup_node tryConnect
    simp [hkey, hpw, hpass]
  refine ⟨by rw [hnode], by rw [hnode], by rw [hnode], ?_⟩
  cases hrun : run cfg env with
  | false => rfl
  | true =>
    have hall := ((run_eq_true_iff cfg env).mp hrun).2.2.1 host hmem
    rw [hnode] at hall
    exact absurd hall (by simp)

/-- Configuration for the C3 witness: password supplied. -/
def cfgC3 : Config := ⟨"10.0.0.1", ["10.0.0.2"], "ubuntu", some "secret", "/root/.ssh/id_rsa"⟩

/-- Run environment for the C3 witness: both authentication methods fail
on every host, everything else succeeds. -/
def envC3run : RunEnv := ⟨true, fun _ => (true, ""), fun _ => envC3, true, true⟩

/-- Witness for the amended C3 at a concrete host. -/
theorem C3_both_auth_fail_witness :
    (setup_node cfgC3.ssh_password (envC3run.nodeEnv "10.0.0.2")).ok = false ∧
    (setup_node cfgC3.ssh_password (envC3run.nodeEnv "10.0.0.2")).reason =
      NodeReason.setupError (envC3run.nodeEnv "10.0.0.2").passwordAuthErr ∧
    (setup_node cfgC3.ssh_password (envC3run.nodeEnv "10.0.0.2")).executed = [] ∧
    run cfgC3 envC3run = false :=
  C3_both_auth_fail cfgC3 envC3run "10.0.0.2" (by decide) (by decide) rfl rfl

end SetupAnsible
